import Mathlib

/-!
Shallow embedding of the diagnostic-orchestration core of the repository:
session state (src/state_manager.py), the structured-output generator and
tool catalog (src/structured_output.py), the enhanced planner
(src/batch_processor.py, section enhanced_planner (8).py, the copy the
orchestrator imports), and the per-step orchestration body
(src/agent_generator_new.py).  Python dictionaries are modelled as
insertion-ordered association lists, observation values as flat objects or
lists of flat objects (the shape the code consumes), machine floats as
rationals, and the external LLM / random collaborators as explicit oracle
arguments.
-/

namespace Diag

/-- A primitive JSON-like value, the value type of tool requests and
observation fields (string, int, bool or None in the Python sources). -/
inductive Prim where
  | str (s : String)
  | int (n : Int)
  | bool (b : Bool)
  | null
  deriving DecidableEq, Repr, Inhabited

/-- Python truthiness of a primitive value (used by checks such as
`if value:` and `a or b`). -/
def Prim.truthy : Prim → Bool
  | .str s => s != ""
  | .int n => n != 0
  | .bool b => b
  | .null => false

/-- Python str() conversion of a primitive value. -/
def Prim.toPyStr : Prim → String
  | .str s => s
  | .int n => toString n
  | .bool b => if b then "True" else "False"
  | .null => "None"

/-- A Python dict with string keys, modelled as an insertion-ordered
association list with unique keys. -/
abbrev Dict := List (String × Prim)

/-- dict[k] assignment: update the first (only) occurrence in place, else
append at the end, matching CPython insertion-order semantics. -/
def dictSet : Dict → String → Prim → Dict
  | [], k, v => [(k, v)]
  | (a, w) :: t, k, v => if a == k then (k, v) :: t else (a, w) :: dictSet t k v

/-- dict.get(k) returning None when absent. -/
def dictGet? (d : Dict) (k : String) : Option Prim :=
  (d.find? (fun kv => kv.1 == k)).map (fun kv => kv.2)

/-- dict.get(k) with the Python default None. -/
def dictGet (d : Dict) (k : String) : Prim :=
  (dictGet? d k).getD .null

/-- `k in dict`. -/
def dictHas (d : Dict) (k : String) : Bool :=
  d.any (fun kv => kv.1 == k)

/-- Python dict merge as in a double-splat, right side overriding. -/
def dictMerge (a b : Dict) : Dict :=
  b.foldl (fun acc kv => dictSet acc kv.1 kv.2) a

/-- An observation value returned by the action executor: a flat object or
a list of flat objects (the two shapes the core consumes). -/
inductive Obs where
  | obj (fields : Dict)
  | list (items : List Dict)
  deriving DecidableEq, Repr, Inhabited

/-- An entry of StateManager.findings (src/state_manager.py line 69). -/
structure Finding where
  finding : String
  severity : String
  step : Nat
  deriving DecidableEq, Repr

/-- An entry of StateManager.executed_tools (src/state_manager.py line 39). -/
structure ExecRecord where
  step : Nat
  tool_name : String
  tool_request : Dict
  tool_response : Obs
  reasoning : String
  deriving DecidableEq, Repr

/-- An entry of StateManager.diagnostic_chain (src/state_manager.py line 85);
next_focus is some only when the truthy next_focus key was stored. -/
structure ChainItem where
  step : Nat
  action : String
  result : String
  conclusion : String
  next_focus : Option String
  deriving DecidableEq, Repr

/-- The session state of src/state_manager.py, fields as in __init__. -/
structure StateManager where
  step_count : Nat := 0
  executed_tools : List ExecRecord := []
  observations : Dict := []
  findings : List Finding := []
  tool_usage_count : List (String × Nat) := []
  diagnostic_chain : List ChainItem := []
  current_focus : Option String := Option.none
  excluded_causes : List String := []
  deriving DecidableEq, Repr

/-- A fresh StateManager (StateManager.__init__). -/
def StateManager.init : StateManager := {}

/-- defaultdict(int) increment: update the first occurrence of the key in
place, else append with count 1 (CPython insertion order). -/
def usageBump : List (String × Nat) → String → List (String × Nat)
  | [], k => [(k, 1)]
  | (a, v) :: t, k => if a == k then (a, v + 1) :: t else (a, v) :: usageBump t k

/-- dict.get(name, 0) on the usage counter. -/
def usageLookup : List (String × Nat) → String → Nat
  | [], _ => 0
  | (a, v) :: t, k => if a == k then v else usageLookup t k

/-- StateManager._extract_observations on a mapping response: store each
field not starting with an underscore under the key tool_name_key. -/
def extractObsInto (tool_name : String) (fields : Dict) (obsMap : Dict) : Dict :=
  fields.foldl
    (fun m kv => if kv.1.startsWith "_" then m
                 else dictSet m (tool_name ++ "_" ++ kv.1) kv.2) obsMap

/-- StateManager.add_execution (src/state_manager.py lines 27-51): bump the
step counter, append the record, bump the usage counter, then extract
observations.  The extraction iterates tool_response.items(), which raises
AttributeError when the response is a bare list, hence the Except. -/
def StateManager.add_execution (s : StateManager) (tool_name : String)
    (tool_request : Dict) (tool_response : Obs) (reasoning : String := "") :
    Except String StateManager :=
  let sc := s.step_count + 1
  let record : ExecRecord :=
    { step := sc, tool_name := tool_name, tool_request := tool_request,
      tool_response := tool_response, reasoning := reasoning }
  let s1 := { s with step_count := sc,
                     executed_tools := s.executed_tools ++ [record],
                     tool_usage_count := usageBump s.tool_usage_count tool_name }
  match tool_response with
  | .obj fields =>
      .ok { s1 with observations := extractObsInto tool_name fields s1.observations }
  | .list _ => .error "AttributeError: list object has no attribute items"

/-- StateManager.add_finding (lines 61-73): append a finding tagged with the
current step count. -/
def StateManager.add_finding (s : StateManager) (finding : String)
    (severity : String := "medium") : StateManager :=
  { s with findings :=
      s.findings ++ [{ finding := finding, severity := severity, step := s.step_count }] }

/-- StateManager.update_diagnostic_chain (lines 75-96): append a chain item;
a truthy next_focus is stored in the item and becomes the current focus. -/
def StateManager.update_diagnostic_chain (s : StateManager)
    (action result conclusion : String) (next_focus : Option String := Option.none) :
    StateManager :=
  let base : ChainItem :=
    { step := s.step_count, action := action, result := result,
      conclusion := conclusion, next_focus := Option.none }
  match next_focus with
  | some nf =>
      if nf != "" then
        { s with diagnostic_chain := s.diagnostic_chain ++ [{ base with next_focus := some nf }],
                 current_focus := some nf }
      else
        { s with diagnostic_chain := s.diagnostic_chain ++ [base] }
  | Option.none =>
      { s with diagnostic_chain := s.diagnostic_chain ++ [base] }

/-- StateManager.get_tool_usage_count (lines 168-170). -/
def StateManager.get_tool_usage_count (s : StateManager) (tool_name : String) : Nat :=
  usageLookup s.tool_usage_count tool_name

/-- StateManager._has_critical_finding (lines 210-215). -/
def StateManager.hasCriticalFinding (s : StateManager) : Bool :=
  s.findings.any (fun f => f.severity == "high")

/-- StateManager._no_new_findings_recently (lines 217-226): false below the
window, else true iff no finding has a step in the inclusive window
from step_count - window + 1 to step_count. -/
def StateManager.noNewFindingsRecently (s : StateManager) (window : Nat := 3) : Bool :=
  if s.step_count < window then false
  else (s.findings.filter
    (fun f => decide (s.step_count + 1 ≤ f.step + window) && decide (f.step ≤ s.step_count))).length == 0

/-- StateManager._sufficient_coverage (lines 228-232): at least 8 distinct
tools used. -/
def StateManager.sufficientCoverage (s : StateManager) : Bool :=
  decide (8 ≤ s.tool_usage_count.length)

/-- StateManager.should_continue (lines 181-208): the four stop conditions
in source order, first match winning; reasons are the literal strings the
code returns (the step-limit string is the StepLimitReached reason of the
spec). -/
def StateManager.should_continue (s : StateManager) (max_steps : Nat := 20) :
    Bool × String :=
  if max_steps ≤ s.step_count then (false, "达到最大步数限制")
  else if s.hasCriticalFinding then (false, "找到关键问题")
  else if s.noNewFindingsRecently 3 && decide (3 ≤ s.step_count) then
    (false, "连续多步无新发现")
  else if s.sufficientCoverage then (false, "已完成全面检查")
  else (true, "继续诊断")

/-- Python substring containment, `pat in s`. -/
def containsSub (s pat : String) : Bool :=
  decide (pat.toList <:+: s.toList)

/-- Python str.lower(), character by character (the strings the code
lowers are ASCII or CJK, where this agrees with Python). -/
def pyLower (s : String) : String :=
  String.mk (s.toList.map Char.toLower)

/-- Python str.strip(): drop whitespace from both ends. -/
def pyStrip (s : String) : String :=
  String.mk (((s.toList.dropWhile Char.isWhitespace).reverse.dropWhile
    Char.isWhitespace).reverse)

/-- One action-observation pair inside a coa list
(src/structured_output.py lines 51-59). -/
structure ActionObs where
  name : String
  args : Dict
  observation : Obs
  deriving DecidableEq, Repr

/-- One step of the structured output: the single-key dict
step-label to cot/coa (src/structured_output.py lines 26-32). -/
structure StepData where
  label : String
  cot : String
  coa : List ActionObs
  deriving DecidableEq, Repr

/-- StructuredOutputGenerator state (src/structured_output.py lines 13-16).
Known-entity lists keep the Python value type of the extracted
identifiers. -/
structure StructuredOutputGenerator where
  current_step : Nat := 0
  steps : List StepData := []
  known_entities : List (String × List Prim) := []
  deriving DecidableEq, Repr

/-- A fresh generator (StructuredOutputGenerator.__init__). -/
def StructuredOutputGenerator.init : StructuredOutputGenerator := {}

/-- Assignment into known_entities (a Python dict update, like dictSet). -/
def keSet : List (String × List Prim) → String → List Prim → List (String × List Prim)
  | [], k, v => [(k, v)]
  | (a, w) :: t, k, v => if a == k then (k, v) :: t else (a, w) :: keSet t k v

/-- known_entities.get(k, []). -/
def keGet : List (String × List Prim) → String → List Prim
  | [], _ => []
  | (a, w) :: t, k => if a == k then w else keGet t k

/-- StructuredOutputGenerator.start_step (lines 18-32). -/
def StructuredOutputGenerator.start_step (g : StructuredOutputGenerator)
    (reasoning : String) : StructuredOutputGenerator :=
  { g with current_step := g.current_step + 1,
           steps := g.steps ++
             [{ label := "step" ++ toString (g.current_step + 1),
                cot := reasoning, coa := [] }] }

/-- StructuredOutputGenerator.add_action_observation (lines 34-59): raises
ValueError when no step was started, looks up the current step label in the
last steps entry (a KeyError if it mismatched) and appends the pair to its
coa.  The batch flag is accepted and ignored, as in the source. -/
def StructuredOutputGenerator.add_action_observation (g : StructuredOutputGenerator)
    (tool_name : String) (tool_args : Dict) (observation : Obs)
    (batch : Bool := false) : Except String StructuredOutputGenerator :=
  match g.steps.getLast? with
  | Option.none => .error "ValueError: 必须先调用start_step()开始新的步骤"
  | some last =>
      if last.label == "step" ++ toString g.current_step then
        .ok { g with steps := g.steps.dropLast ++
          [{ last with coa := last.coa ++
             [{ name := tool_name, args := tool_args, observation := observation }] }] }
      else .error "KeyError"

/-- StructuredOutputGenerator.update_known_entities (lines 61-69): a plain
dict assignment, replacing whatever list was stored for the type. -/
def StructuredOutputGenerator.update_known_entities (g : StructuredOutputGenerator)
    (entity_type : String) (entities : List Prim) : StructuredOutputGenerator :=
  { g with known_entities := keSet g.known_entities entity_type entities }

/-- StructuredOutputGenerator.get_known_entities (lines 71-73). -/
def StructuredOutputGenerator.get_known_entities (g : StructuredOutputGenerator)
    (entity_type : String) : List Prim :=
  keGet g.known_entities entity_type

/-- The fixed key list scanned by extract_entities_from_observation
(src/structured_output.py lines 113 and 120). -/
def entityKeys : List String :=
  ["接口", "interface", "interface_name", "设备", "device", "device_name"]

/-- Per-item scan: first present key of entityKeys wins (the break). -/
def extractFromItem (item : Dict) : Option Prim :=
  match entityKeys.find? (fun k => dictHas item k) with
  | some k => some (dictGet item k)
  | Option.none => Option.none

/-- extract_entities_from_observation (src/structured_output.py lines
96-125).  The entity_type argument is accepted and ignored exactly as in
the source, which scans the same fixed key list for every type. -/
def extract_entities_from_observation (observation : Obs) (entity_type : String) :
    List Prim :=
  match observation with
  | .obj fields =>
      match extractFromItem fields with
      | some v => [v]
      | Option.none => []
  | .list items =>
      items.foldl (fun acc item =>
        match extractFromItem item with
        | some v => acc ++ [v]
        | Option.none => acc) []

/-- should_batch_execute (src/structured_output.py lines 128-147): more than
one known entity and a fan-out keyword in the reasoning. -/
def should_batch_execute (reasoning : String) (entities : List Prim) : Bool :=
  let batch_keywords := ["逐一", "每个", "所有", "批量", "遍历", "检查所有"]
  if decide (1 < entities.length) then
    batch_keywords.any (fun keyword => containsSub reasoning keyword)
  else false

/-- The tool catalog of src/structured_output.py (section tool_manager
(1).py): tools maps tool name to description, tool_parameters maps tool
name to its parameter string. -/
structure ToolManager where
  tools : List (String × String) := []
  tool_parameters : List (String × String) := []
  deriving DecidableEq, Repr

/-- ToolManager.is_valid_tool (src/structured_output.py lines 354-368):
finish_diagnosis and finish are always valid, otherwise membership in the
loaded tools. -/
def ToolManager.is_valid_tool (tm : ToolManager) (tool_name : String) : Bool :=
  if tool_name == "finish_diagnosis" || tool_name == "finish" then true
  else tm.tools.any (fun kv => kv.1 == tool_name)

/-- Modelled from the spec: ToolManager.get_all_tool_names is called by the
planner (src/batch_processor.py lines 1374, 1662, 1973) but its definition
is not among the source files; per the spec the ToolCatalog "holds the set
of valid action names" and the strict fallback "supplies the full list of
valid action names verbatim", so it is modelled as the list of loaded tool
names. -/
def ToolManager.get_all_tool_names (tm : ToolManager) : List String :=
  tm.tools.map (fun kv => kv.1)

/-- The finding dict built by AgentGenerator._analyze_tool_response, with
keys type and content (src/agent_generator_new.py lines 349-371). -/
structure AFinding where
  ftype : String
  content : String
  deriving DecidableEq, Repr

/-- Models the Python check pat in str(response) for the two-character
pattern 错包: the dict repr punctuation cannot contain or straddle it, so
it holds iff some key or some string value contains the pattern. -/
def dictReprContains (d : Dict) (pat : String) : Bool :=
  d.any (fun kv => containsSub kv.1 pat ||
    (match kv.2 with | .str s => containsSub s pat | _ => false))

/-- AgentGenerator._analyze_tool_response (src/agent_generator_new.py lines
338-372): empty responses give no finding; a down status or an error
marker gives an anomaly, other dicts a normal finding, lists an info
finding. -/
def analyze_tool_response (tool_name : String) (response : Obs) : Option AFinding :=
  match response with
  | .obj fields =>
      if fields.isEmpty then Option.none
      else if dictGet fields "status" == Prim.str "down" ||
              dictGet fields "状态" == Prim.str "down" then
        some { ftype := "anomaly", content := "发现异常: 接口状态为down" }
      else if dictHas fields "errors" || dictReprContains fields "错包" then
        some { ftype := "anomaly", content := "发现错包或错误统计异常" }
      else some { ftype := "normal", content := "数据获取成功，未发现明显异常" }
  | .list items =>
      if items.isEmpty then Option.none
      else some { ftype := "info", content := "成功获取" ++ toString items.length ++ "条记录" }

/-- The finding-recording call of the orchestration loop
(src/agent_generator_new.py lines 287-295): note the source passes the
classification type as the finding text and the content text as the
severity. -/
def record_finding_step (st : StateManager) (finding : Option AFinding) : StateManager :=
  match finding with
  | some f => st.add_finding f.ftype f.content
  | Option.none => st

/-- Same call with the finding computed in place. -/
def recordStepFinding (st : StateManager) (tool_name : String) (response : Obs) :
    StateManager :=
  record_finding_step st (analyze_tool_response tool_name response)

/-- AgentGenerator._summarize_tool_result (src/agent_generator_new.py lines
374-387). -/
def summarize_tool_result (result : Obs) : String :=
  match result with
  | .list items => "返回" ++ toString items.length ++ "条记录"
  | .obj fields =>
      let key_fields := (["status", "状态", "errors", "错包", "interface", "接口"] :
          List String).foldl
        (fun acc k => if dictHas fields k then acc ++ [k ++ "=" ++ (dictGet fields k).toPyStr]
                      else acc) []
      if !key_fields.isEmpty then String.intercalate ", " (key_fields.take 3)
      else "数据获取成功"

/-- AgentGenerator._generate_conclusion (src/agent_generator_new.py lines
389-398).  The response argument is unused, as in the source. -/
def generate_conclusion (response : Obs) (finding : Option AFinding) : String :=
  match finding with
  | some f =>
      if f.ftype == "anomaly" then "发现异常: " ++ f.content
      else if f.ftype == "normal" then "正常，无异常"
      else f.content
  | Option.none => "已执行"

/-- The goal structure consumed by the planner; only the entities and
context_params fields are read by the embedded functions
(src/batch_processor.py lines 1869-1881, 2002-2013). -/
structure Goal where
  entities : Dict := []
  context_params : Dict := []
  deriving Repr

/-- A parsed candidate returned by the candidate-generation collaborator:
the JSON object of src/batch_processor.py lines 1428-1438, plus the score
key the scoring loop may add (score none models the key being absent). -/
structure Candidate where
  tool_name : String
  tool_request : Dict := []
  reasoning : String := ""
  expected_outcome : Option String := Option.none
  next_focus : Option String := Option.none
  score : Option Rat := Option.none
  deriving DecidableEq, Repr, Inhabited

/-- The invalid-value patterns of EnhancedPlanner._is_valid_parameter_value
(src/batch_processor.py lines 1832-1837). -/
def invalidPatterns : List String :=
  ["设备", "接口", "所在", "某个", "这个", "那个",
   "device", "interface", "ip", "port", "vlan",
   "未知", "待定", "unknown", "tbd",
   "...", "xxx", "yyy"]

/-- The string path of EnhancedPlanner._is_valid_parameter_value
(src/batch_processor.py lines 1814-1847): a value is invalid when it equals
a pattern after lowercasing and stripping, or is shorter than 15 characters,
contains a pattern and has no slash or dot. -/
def is_valid_parameter_value_str (value : String) : Bool :=
  let value_lower := pyStrip (pyLower value)
  invalidPatterns.all (fun pattern =>
    !(value_lower == pattern) &&
    !(decide (value.length < 15) && containsSub value_lower pattern &&
      !containsSub value "/" && !containsSub value "."))

/-- EnhancedPlanner._is_valid_parameter_value on a raw value: falsy or
non-string values are invalid. -/
def is_valid_parameter_value : Prim → Bool
  | .str v => if v == "" then false else is_valid_parameter_value_str v
  | _ => false

/-- The accumulator of EnhancedPlanner._extract_known_parameters
(src/batch_processor.py lines 1860-1866). -/
structure KnownParams where
  device_name : List String := []
  interface_name : List String := []
  ip : List String := []
  vlan : List String := []
  hostname : List String := []
  deriving DecidableEq, Repr

/-- The goal-entities / context-params branch of _extract_known_parameters
(lines 1872-1881): classify by substring of the lowercased key, keeping
valid truthy values, str()-converted. -/
def classifyGoalParam (kp : KnownParams) (key : String) (value : Prim) : KnownParams :=
  let kl := pyLower key
  if containsSub kl "device" then
    if value.truthy && is_valid_parameter_value (Prim.str value.toPyStr) then
      { kp with device_name := kp.device_name ++ [value.toPyStr] }
    else kp
  else if containsSub kl "interface" then
    if value.truthy && is_valid_parameter_value (Prim.str value.toPyStr) then
      { kp with interface_name := kp.interface_name ++ [value.toPyStr] }
    else kp
  else if containsSub kl "ip" then
    if value.truthy && is_valid_parameter_value (Prim.str value.toPyStr) then
      { kp with ip := kp.ip ++ [value.toPyStr] }
    else kp
  else kp

/-- The tool_request branch of _extract_known_parameters (lines 1889-1896):
validity first, then the same key classification. -/
def classifyRequestParam (kp : KnownParams) (key : String) (value : Prim) : KnownParams :=
  if value.truthy && is_valid_parameter_value (Prim.str value.toPyStr) then
    let kl := pyLower key
    if containsSub kl "device" then
      { kp with device_name := kp.device_name ++ [value.toPyStr] }
    else if containsSub kl "interface" then
      { kp with interface_name := kp.interface_name ++ [value.toPyStr] }
    else if containsSub kl "ip" then
      { kp with ip := kp.ip ++ [value.toPyStr] }
    else kp
  else kp

/-- The dict-response branch of _extract_known_parameters (lines
1899-1907): exact key membership. -/
def classifyRespDictEntry (kp : KnownParams) (key : String) (value : Prim) : KnownParams :=
  if value.truthy && is_valid_parameter_value (Prim.str value.toPyStr) then
    if key == "设备" || key == "device" || key == "device_name" then
      { kp with device_name := kp.device_name ++ [value.toPyStr] }
    else if key == "接口" || key == "interface" || key == "interface_name" then
      { kp with interface_name := kp.interface_name ++ [value.toPyStr] }
    else if key == "IP" || key == "IP地址" || key == "ip" then
      { kp with ip := kp.ip ++ [value.toPyStr] }
    else kp
  else kp

/-- The list-response branch of _extract_known_parameters (lines
1909-1922): like the dict branch, with the masked-IP key split on the
slash and re-validated. -/
def classifyRespListEntry (kp : KnownParams) (key : String) (value : Prim) : KnownParams :=
  if value.truthy && is_valid_parameter_value (Prim.str value.toPyStr) then
    if key == "设备" || key == "device" || key == "device_name" then
      { kp with device_name := kp.device_name ++ [value.toPyStr] }
    else if key == "接口" || key == "interface" || key == "interface_name" then
      { kp with interface_name := kp.interface_name ++ [value.toPyStr] }
    else if key == "IP" || key == "IP地址" || key == "ip" || key == "IP地址/掩码" then
      let ip_value := (value.toPyStr.splitOn "/").headD ""
      if is_valid_parameter_value (Prim.str ip_value) then
        { kp with ip := kp.ip ++ [ip_value] }
      else kp
    else kp
  else kp

/-- EnhancedPlanner._extract_known_parameters (src/batch_processor.py lines
1849-1928).  The final Python list(set(...)) deduplication has unspecified
order (hash-salted sets); it is modelled by List.dedup, and the claims
proved below depend only on the underlying set. -/
def extract_known_parameters (st : StateManager) (goal : Goal) : KnownParams :=
  let kp0 : KnownParams := {}
  let merged := dictMerge goal.entities goal.context_params
  let kp1 := merged.foldl (fun kp kv => classifyGoalParam kp kv.1 kv.2) kp0
  let kp2 := st.executed_tools.foldl (fun kp ex =>
    let kpA := ex.tool_request.foldl (fun kp kv => classifyRequestParam kp kv.1 kv.2) kp
    match ex.tool_response with
    | .obj fields => fields.foldl (fun kp kv => classifyRespDictEntry kp kv.1 kv.2) kpA
    | .list items => items.foldl (fun kp item =>
        item.foldl (fun kp kv => classifyRespListEntry kp kv.1 kv.2) kp) kpA) kp1
  { device_name := kp2.device_name.dedup,
    interface_name := kp2.interface_name.dedup,
    ip := kp2.ip.dedup,
    vlan := kp2.vlan.dedup,
    hostname := kp2.hostname.dedup }

/-- EnhancedPlanner._find_valid_parameter (src/batch_processor.py lines
1930-1960): first stored value of the type matching the parameter name,
empty string when none. -/
def find_valid_parameter (param_name : String) (kp : KnownParams) : String :=
  let pl := pyLower param_name
  if containsSub pl "device" then
    if !kp.device_name.isEmpty then kp.device_name.headD "" else ""
  else if containsSub pl "interface" then
    if !kp.interface_name.isEmpty then kp.interface_name.headD "" else ""
  else if containsSub pl "ip" then
    if !kp.ip.isEmpty then kp.ip.headD "" else ""
  else if containsSub pl "vlan" then
    if !kp.vlan.isEmpty then kp.vlan.headD "" else ""
  else if containsSub pl "hostname" then
    if !kp.hostname.isEmpty then kp.hostname.headD "" else ""
  else ""

/-- EnhancedPlanner._validate_and_fix_parameters (src/batch_processor.py
lines 1774-1812): each invalid argument is replaced by the matching known
value when one is found (truthy), otherwise left as is.  The source first
collects the invalid arguments then substitutes into the dict; since the
known values do not change in between, this equals a single pass. -/
def validate_and_fix_parameters (plan : Candidate) (st : StateManager) (goal : Goal) :
    Candidate :=
  let known_params := extract_known_parameters st goal
  let fixed := plan.tool_request.map (fun kv =>
    if is_valid_parameter_value kv.2 then kv
    else
      let valid_value := find_valid_parameter kv.1 known_params
      if valid_value != "" then (kv.1, Prim.str valid_value) else kv)
  { plan with tool_request := fixed }

/-- EnhancedPlanner._get_tool_candidates (src/batch_processor.py lines
1522-1576): each of the top_k LLM calls yields at most one parsed candidate
(none models a parse failure or a missing tool_name key); candidates whose
name fails is_valid_tool are discarded. -/
def get_tool_candidates (tm : ToolManager) (raws : List (Option Candidate)) :
    List Candidate :=
  raws.foldl (fun acc r =>
    match r with
    | some c => if tm.is_valid_tool c.tool_name then acc ++ [c] else acc
    | Option.none => acc) []

/-- The scoring loop of EnhancedPlanner._apply_exploration_strategy
(src/batch_processor.py lines 1612-1624), rendered as a zipper over the
mutated list: at each iteration the processed prefix (done) already carries
score keys, the current candidate is looked up with list.index (first equal
element) in the whole list, and its score key is assigned. -/
def scoreLoop (n : Nat) (st : StateManager) :
    List Candidate → List Candidate → List Candidate
  | done, [] => done
  | done, c :: rest =>
      let l := done ++ c :: rest
      let idx := l.findIdx (fun x => x == c)
      let base_score : Rat := (n : Rat) - (idx : Rat)
      let exploration_bonus : Rat :=
        2 / ((st.get_tool_usage_count c.tool_name : Rat) + 1)
      scoreLoop n st (done ++ [{ c with score := some (base_score + exploration_bonus) }]) rest

/-- The full scoring pass over the candidate list (base score
len(candidates) - index plus the exploration bonus). -/
def apply_scores (candidates : List Candidate) (st : StateManager) : List Candidate :=
  scoreLoop candidates.length st [] candidates

/-- The two random draws a single selection can consume: the balanced-mode
coin (true models random.random() < 0.7) and a pick index for the
uniform / weighted choices. -/
structure RandChoice where
  coin : Bool := true
  idx : Nat := 0
  deriving Repr, Inhabited

/-- Sort key of the selection modes (the score the loop just assigned). -/
def scoreKey (c : Candidate) : Rat :=
  c.score.getD 0

/-- EnhancedPlanner._apply_exploration_strategy (src/batch_processor.py
lines 1598-1650): error on an empty candidate list, otherwise score, sort
descending (stable, as list.sort with reverse=True) and select by mode.
The uniform and weighted random choices are modelled by the oracle index
taken modulo the relevant length; every weight is positive, so any element
can be drawn. -/
def apply_exploration_strategy (mode : String) (rc : RandChoice)
    (st : StateManager) (candidates : List Candidate) : Except String Candidate :=
  if candidates.isEmpty then .error "无候选工具"
  else
    let scored := apply_scores candidates st
    let sorted := scored.mergeSort (fun a b => decide (scoreKey b ≤ scoreKey a))
    if mode == "greedy" then .ok sorted.headI
    else if mode == "balanced" then
      if rc.coin then .ok sorted.headI
      else if decide (1 < sorted.length) then
        .ok ((sorted.drop 1).getD (rc.idx % (sorted.length - 1)) sorted.headI)
      else .ok sorted.headI
    else
      .ok (sorted.getD (rc.idx % sorted.length) sorted.headI)

/-- The inner similarity helper of _fuzzy_match_tool_name
(src/batch_processor.py lines 1752-1760): lowercase, put the shorter string
first, count its characters occurring in the other, divide by the longer
length. -/
def simpleSimilarity (s1 s2 : String) : Rat :=
  let a := (pyLower s1).toList
  let b := (pyLower s2).toList
  let p := if decide (b.length < a.length) then (b, a) else (a, b)
  let common : Nat := (p.1.filter (fun c => p.2.contains c)).length
  (common : Rat) / (max p.1.length p.2.length : Rat)

/-- EnhancedPlanner._fuzzy_match_tool_name (src/batch_processor.py lines
1725-1772): exact case-insensitive match, then two-way containment, then
best similarity above the 0.6 threshold. -/
def fuzzy_match_tool_name (invalid_name : String) (valid_tools : List String) :
    Option String :=
  if invalid_name == "" || valid_tools.isEmpty then Option.none
  else
    let invalid_lower := pyStrip (pyLower invalid_name)
    match valid_tools.find? (fun tool => (pyLower tool) == invalid_lower) with
    | some tool => some tool
    | Option.none =>
        match valid_tools.find? (fun tool =>
            containsSub (pyLower tool) invalid_lower ||
            containsSub invalid_lower (pyLower tool)) with
        | some tool => some tool
        | Option.none =>
            (valid_tools.foldl (fun (acc : Rat × Option String) tool =>
              let score := simpleSimilarity invalid_name tool
              if acc.1 < score ∧ (6 / 10 : Rat) < score then (score, some tool)
              else acc) (0, Option.none)).2

/-- EnhancedPlanner._try_tool_name_correction (src/batch_processor.py lines
1652-1723): the strict re-query is the oracle argument (none models a call
or parse failure); a valid returned name is kept, an invalid one goes
through fuzzy matching. -/
def try_tool_name_correction (tm : ToolManager) (correction : Option Candidate) :
    Option Candidate :=
  match correction with
  | Option.none => Option.none
  | some c =>
      if tm.is_valid_tool c.tool_name then some c
      else
        match fuzzy_match_tool_name c.tool_name tm.get_all_tool_names with
        | some corrected => some { c with tool_name := corrected }
        | Option.none => Option.none

/-- EnhancedPlanner._select_fallback_tool (src/batch_processor.py lines
1962-2021): error only on an empty catalog; otherwise a deterministic pick
(a query-like tool on the first step, else an unused tool, else one of
minimum usage), with arguments filled from the goal parameters. -/
def select_fallback_tool (tm : ToolManager) (st : StateManager) (goal : Goal) :
    Except String Candidate :=
  let all_tools := tm.get_all_tool_names
  if all_tools.isEmpty then .error "没有可用工具"
  else
    let selected_tool :=
      if st.step_count == 0 then
        let query_tools := all_tools.filter (fun t =>
          containsSub (pyLower t) "query" || containsSub (pyLower t) "get" ||
          containsSub (pyLower t) "show")
        if !query_tools.isEmpty then query_tools.headD "" else all_tools.headD ""
      else
        let unused_tools := all_tools.filter (fun t =>
          !(st.tool_usage_count.any (fun kv => kv.1 == t)))
        if !unused_tools.isEmpty then unused_tools.headD ""
        else
          match (st.tool_usage_count.map (fun kv => kv.2)).min? with
          | some min_usage =>
              ((st.tool_usage_count.filter (fun kv => kv.2 == min_usage)).headD ("", 0)).1
          | Option.none => all_tools.headD ""
    let all_params := dictMerge goal.context_params goal.entities
    let tool_request : Dict :=
      (if dictHas all_params "device" || dictHas all_params "device_name" then
        [("device_name",
          if (dictGet all_params "device_name").truthy then dictGet all_params "device_name"
          else dictGet all_params "device")]
      else []) ++
      (if dictHas all_params "interface" || dictHas all_params "interface_name" then
        [("interface_name",
          if (dictGet all_params "interface_name").truthy then dictGet all_params "interface_name"
          else dictGet all_params "interface")]
      else [])
    .ok { tool_name := selected_tool,
          tool_request := tool_request,
          reasoning := "备用工具选择（前" ++ toString st.step_count ++ "步选择遇到问题）",
          expected_outcome := some "获取基础信息",
          next_focus := some "根据结果决定下一步" }

/-- The result of EnhancedPlanner.select_next_tool as seen by the
orchestrator: a plan dict, or a dict carrying an error key. -/
inductive PlanOut where
  | plan (c : Candidate)
  | failure (msg : String)
  deriving Repr

/-- Whether a planner result is a plan (no error key). -/
def PlanOut.isPlan : PlanOut → Bool
  | .plan _ => true
  | .failure _ => false

/-- One iteration of the retry loop of select_next_tool
(src/batch_processor.py lines 1266-1284): generate candidates, select, and
keep the selection only when its name passes is_valid_tool; none means the
iteration falls through to the next retry. -/
def select_attempt (tm : ToolManager) (mode : String) (st : StateManager)
    (raws : List (Option Candidate)) (rc : RandChoice) : Option Candidate :=
  let candidates := get_tool_candidates tm raws
  match apply_exploration_strategy mode rc st candidates with
  | .error _ => Option.none
  | .ok selected =>
      if tm.is_valid_tool selected.tool_name then some selected else Option.none

/-- EnhancedPlanner.select_next_tool (src/batch_processor.py lines
1242-1299): three retries, then the strict-re-query correction, then the
deterministic fallback; every successful path runs parameter repair.  The
LLM responses of retry r are the oracle rounds r, its random draws rand r,
and the strict re-query response is the correction oracle. -/
def select_next_tool (tm : ToolManager) (mode : String) (st : StateManager)
    (goal : Goal) (rounds : Nat → List (Option Candidate))
    (rand : Nat → RandChoice) (correction : Option Candidate) : PlanOut :=
  match select_attempt tm mode st (rounds 0) (rand 0) <|>
        select_attempt tm mode st (rounds 1) (rand 1) <|>
        select_attempt tm mode st (rounds 2) (rand 2) with
  | some selected => .plan (validate_and_fix_parameters selected st goal)
  | Option.none =>
      match try_tool_name_correction tm correction with
      | some corrected => .plan (validate_and_fix_parameters corrected st goal)
      | Option.none =>
          match select_fallback_tool tm st goal with
          | .ok fallback => .plan (validate_and_fix_parameters fallback st goal)
          | .error e => .failure e

/-- AgentGenerator._get_relevant_entities (src/agent_generator_new.py lines
316-325): keyed on a substring of the lowercased tool name. -/
def get_relevant_entities (g : StructuredOutputGenerator) (tool_name : String) :
    List Prim :=
  let tool_name_lower := pyLower tool_name
  if containsSub tool_name_lower "interface" then g.get_known_entities "interfaces"
  else if containsSub tool_name_lower "device" then g.get_known_entities "devices"
  else []

/-- AgentGenerator._update_tool_request_for_entity (src/agent_generator_new.py
lines 327-336). -/
def update_tool_request_for_entity (request : Dict) (entity : Prim)
    (tool_name : String) : Dict :=
  let tool_name_lower := pyLower tool_name
  if containsSub tool_name_lower "interface" then dictSet request "interface_name" entity
  else if containsSub tool_name_lower "device" then dictSet request "device_name" entity
  else request

/-- Python slice-and-ellipsis formatting s up to n characters plus "..."
when longer (used for the chain action and conclusion strings). -/
def truncateWithEllipsis (s : String) (n : Nat) : String :=
  let t := String.mk (s.toList.take n)
  if decide (n < s.length) then t ++ "..." else t

/-- The batch fan-out loop of AgentGenerator.generate
(src/agent_generator_new.py lines 213-246): per entity, substitute it into
a copy of the planned request, execute, append the observation to the
current step, and record into the session state only when the entity equals
the first element of the entity list.  The executor is the oracle exec;
acc collects the executions performed. -/
def run_batch (tool_name : String) (base_req : Dict) (reasoning : String)
    (first : Prim) (exec : Dict → Obs) :
    List Prim → StateManager → StructuredOutputGenerator → List (Dict × Obs) →
    Except String (StateManager × StructuredOutputGenerator × List (Dict × Obs))
  | [], st, g, acc => .ok (st, g, acc)
  | entity :: rest, st, g, acc =>
      let tool_request := update_tool_request_for_entity base_req entity tool_name
      let tool_response := exec tool_request
      match g.add_action_observation tool_name tool_request tool_response true with
      | .error e => .error e
      | .ok g1 =>
          match (if entity == first then
                   st.add_execution tool_name tool_request tool_response reasoning
                 else .ok st) with
          | .error e => .error e
          | .ok st1 =>
              run_batch tool_name base_req reasoning first exec rest st1 g1
                (acc ++ [(tool_request, tool_response)])

/-- The outcome of a single iteration of the orchestration loop. -/
structure StepOutcome where
  state : StateManager
  gen : StructuredOutputGenerator
  executions : List (Dict × Obs)
  deriving Repr

/-- One iteration of the AgentGenerator.generate loop after planning
(src/agent_generator_new.py lines 200-305): start the output step, run the
batch fan-out or the single execution (with entity extraction in the single
branch), then record the finding (with the swapped arguments of line 294)
and append the diagnostic-chain entry.  tool_response afterwards is the
response of the last execution, as the Python loop variable. -/
def generate_step_body (plan : Candidate) (exec : Dict → Obs)
    (st : StateManager) (g0 : StructuredOutputGenerator) :
    Except String StepOutcome :=
  let reasoning := plan.reasoning
  let g1 := g0.start_step reasoning
  let relevant_entities := get_relevant_entities g1 plan.tool_name
  let branch :
      Except String (StateManager × StructuredOutputGenerator × List (Dict × Obs) × Obs) :=
    if !relevant_entities.isEmpty && decide (1 < relevant_entities.length) &&
       should_batch_execute reasoning relevant_entities then
      match run_batch plan.tool_name plan.tool_request reasoning
          (relevant_entities.headD Prim.null) exec relevant_entities st g1 [] with
      | .error e => .error e
      | .ok (st1, gB, acc) =>
          .ok (st1, gB, acc, ((acc.getLast?).map (fun p => p.2)).getD (Obs.obj []))
    else
      let tool_response := exec plan.tool_request
      match g1.add_action_observation plan.tool_name plan.tool_request tool_response with
      | .error e => .error e
      | .ok g2 =>
          match st.add_execution plan.tool_name plan.tool_request tool_response reasoning with
          | .error e => .error e
          | .ok st1 =>
              let interfaces := extract_entities_from_observation tool_response "interface"
              let g3 := if !interfaces.isEmpty then
                  g2.update_known_entities "interfaces" interfaces else g2
              let devices := extract_entities_from_observation tool_response "device"
              let g4 := if !devices.isEmpty then
                  g3.update_known_entities "devices" devices else g3
              .ok (st1, g4, [(plan.tool_request, tool_response)], tool_response)
  match branch with
  | .error e => .error e
  | .ok (st1, gB, execs, tool_response) =>
      let finding := analyze_tool_response plan.tool_name tool_response
      let st2 := record_finding_step st1 finding
      let st3 := st2.update_diagnostic_chain
        (plan.tool_name ++ " - " ++ truncateWithEllipsis plan.reasoning 50)
        (summarize_tool_result tool_response)
        (generate_conclusion tool_response finding)
        (some (plan.next_focus.getD ""))
      .ok { state := st3, gen := gB, executions := execs }

/-! ## Helper lemmas -/

theorem keGet_keSet (m : List (String × List Prim)) (k : String) (v : List Prim) :
    keGet (keSet m k v) k = v := by
  induction m with
  | nil => simp [keSet, keGet]
  | cons hd t ih =>
      obtain ⟨a, w⟩ := hd
      by_cases hak : (a == k) = true
      · simp [keSet, keGet, hak]
      · simp [keSet, keGet, hak, ih]

theorem usageLookup_usageBump_self (m : List (String × Nat)) (k : String) :
    usageLookup (usageBump m k) k = usageLookup m k + 1 := by
  induction m with
  | nil => simp [usageBump, usageLookup]
  | cons hd t ih =>
      obtain ⟨a, v⟩ := hd
      by_cases hak : (a == k) = true
      · simp [usageBump, usageLookup, hak]
      · simp [usageBump, usageLookup, hak, ih]

theorem usageLookup_usageBump_ne (m : List (String × Nat)) (k j : String)
    (h : j ≠ k) :
    usageLookup (usageBump m k) j = usageLookup m j := by
  have hkj : (k == j) = false := by
    simp only [beq_eq_false_iff_ne, ne_eq]
    exact fun hh => h hh.symm
  induction m with
  | nil => simp [usageBump, usageLookup, hkj]
  | cons hd t ih =>
      obtain ⟨a, v⟩ := hd
      by_cases hak : (a == k) = true
      · have hak' : a = k := by simpa using hak
        subst hak'
        simp [usageBump, usageLookup, hak, hkj]
      · simp [usageBump, usageLookup, hak, ih]

/-! ## C1: stepCount / actions / diagnosticChain lengths -/

/-- The recordAction / updateChain calls of the spec surface, as a command
sequence over the session state. -/
inductive SMOp where
  | record (tool_name : String) (tool_request : Dict) (tool_response : Obs)
      (reasoning : String)
  | chain (action result conclusion : String) (next_focus : Option String)
  deriving Repr

/-- Run a sequence of recordAction / updateChain calls, stopping at the
first raised exception. -/
def runOps (s : StateManager) : List SMOp → Except String StateManager
  | [] => .ok s
  | SMOp.record n q r g :: rest =>
      match s.add_execution n q r g with
      | .error e => .error e
      | .ok s1 => runOps s1 rest
  | SMOp.chain a r c nf :: rest => runOps (s.update_diagnostic_chain a r c nf) rest

/-- Number of recordAction calls in a sequence. -/
def countRecords : List SMOp → Nat
  | [] => 0
  | SMOp.record _ _ _ _ :: rest => countRecords rest + 1
  | SMOp.chain _ _ _ _ :: rest => countRecords rest

/-- Number of updateChain calls in a sequence. -/
def countChains : List SMOp → Nat
  | [] => 0
  | SMOp.record _ _ _ _ :: rest => countChains rest
  | SMOp.chain _ _ _ _ :: rest => countChains rest + 1

/-- The C1 invariant as a decidable check. -/
def invC1 (s : StateManager) : Bool :=
  s.step_count == s.executed_tools.length &&
  s.executed_tools.length == s.diagnostic_chain.length

theorem add_execution_ok_shape (s s1 : StateManager) (n : String) (q : Dict)
    (r : Obs) (g : String) (h : s.add_execution n q r g = .ok s1) :
    s1.step_count = s.step_count + 1 ∧
    s1.executed_tools.length = s.executed_tools.length + 1 ∧
    s1.diagnostic_chain = s.diagnostic_chain := by
  unfold StateManager.add_execution at h
  cases r with
  | obj fields =>
      simp only [Except.ok.injEq] at h
      subst h
      simp
  | list items => simp at h

theorem update_chain_shape (s : StateManager) (a r c : String)
    (nf : Option String) :
    (s.update_diagnostic_chain a r c nf).step_count = s.step_count ∧
    (s.update_diagnostic_chain a r c nf).executed_tools = s.executed_tools ∧
    (s.update_diagnostic_chain a r c nf).diagnostic_chain.length =
      s.diagnostic_chain.length + 1 := by
  unfold StateManager.update_diagnostic_chain
  cases nf with
  | none => simp
  | some v =>
      by_cases hv : (v != "") = true <;> simp [hv]

theorem runOps_counts (ops : List SMOp) :
    ∀ s s', runOps s ops = .ok s' →
      s'.step_count = s.step_count + countRecords ops ∧
      s'.executed_tools.length = s.executed_tools.length + countRecords ops ∧
      s'.diagnostic_chain.length = s.diagnostic_chain.length + countChains ops := by
  induction ops with
  | nil =>
      intro s s' h
      simp only [runOps, Except.ok.injEq] at h
      subst h
      simp [countRecords, countChains]
  | cons op rest ih =>
      intro s s' h
      cases op with
      | record n q r g =>
          unfold runOps at h
          cases hr : s.add_execution n q r g with
          | error e => rw [hr] at h; exact absurd h (by simp)
          | ok s1 =>
              rw [hr] at h
              obtain ⟨h1, h2, h3⟩ := add_execution_ok_shape s s1 n q r g hr
              obtain ⟨k1, k2, k3⟩ := ih s1 s' h
              refine ⟨?_, ?_, ?_⟩
              · rw [k1, h1, countRecords]; omega
              · rw [k2, h2, countRecords]; omega
              · rw [k3, h3, countChains]
      | chain a r c nf =>
          unfold runOps at h
          obtain ⟨h1, h2, h3⟩ := update_chain_shape s a r c nf
          obtain ⟨k1, k2, k3⟩ := ih _ s' h
          refine ⟨?_, ?_, ?_⟩
          · rw [k1, h1, countRecords]
          · rw [k2, h2, countRecords]
          · rw [k3, h3, countChains]; omega

/-- C1.  The claim as stated is false: a recordAction call advances
stepCount and the action log but not the diagnostic chain, so after the
single-call sequence [recordAction] the invariant stepCount == len(actions)
== len(diagnosticChain) fails (1 = 1 but the chain is empty). -/
theorem C1_claim_counterexample :
    (runOps StateManager.init
      [SMOp.record "query_interface_info" [] (Obs.obj [("status", Prim.str "up")]) ""]).map
      invC1 = Except.ok false := rfl

/-- C1 (amended): after any sequence of recordAction / updateChain calls
that completes without an exception and contains equally many recordAction
and updateChain calls - in particular the one-of-each pairing the
orchestration loop performs every step - the session satisfies
stepCount == len(actions) == len(diagnosticChain). -/
theorem C1_amended_paired_calls_invariant (ops : List SMOp) (s' : StateManager)
    (hrun : runOps StateManager.init ops = .ok s')
    (hbal : countRecords ops = countChains ops) :
    invC1 s' = true := by
  obtain ⟨h1, h2, h3⟩ := runOps_counts ops StateManager.init s' hrun
  simp only [StateManager.init] at h1 h2 h3
  simp only [invC1, Bool.and_eq_true, beq_iff_eq]
  constructor
  · simp at h1 h2
    omega
  · simp at h2 h3
    omega

theorem C1_amended_witness :
    (runOps StateManager.init
      [SMOp.record "query_interface_info" [] (Obs.obj [("status", Prim.str "up")]) "",
       SMOp.chain "a" "r" "c" Option.none]).map invC1 = Except.ok true := by
  obtain ⟨s', hs⟩ : ∃ s', runOps StateManager.init
      [SMOp.record "query_interface_info" [] (Obs.obj [("status", Prim.str "up")]) "",
       SMOp.chain "a" "r" "c" Option.none] = Except.ok s' := ⟨_, rfl⟩
  rw [hs]
  show Except.ok (invC1 s') = Except.ok true
  rw [C1_amended_paired_calls_invariant _ s' hs rfl]

/-! ## C2: step limit checked first -/

/-- C2: whenever stepCount has reached maxSteps, should_continue stops with
the step-limit reason (the literal string the code returns for the reason
the spec names StepLimitReached), for every state, in particular regardless
of the findings list, because the step-limit condition is checked first. -/
theorem C2_step_limit_checked_first (s : StateManager) (max_steps : Nat)
    (h : max_steps ≤ s.step_count) :
    s.should_continue max_steps = (false, "达到最大步数限制") := by
  unfold StateManager.should_continue
  rw [if_pos h]

theorem C2_witness :
    (20 : Nat) ≤ ({ step_count := 20, findings := [{ finding := "x", severity := "high", step := 2 }] } : StateManager).step_count ∧
    ({ step_count := 20, findings := [{ finding := "x", severity := "high", step := 2 }] } : StateManager).should_continue 20 = (false, "达到最大步数限制") :=
  ⟨by decide, C2_step_limit_checked_first _ 20 (by decide)⟩

/-! ## C5: finding severity stored by the orchestration loop -/

/-- C5: the orchestration loop calls add_finding with the classification
type as the finding text and the content text as the severity
(src/agent_generator_new.py line 294), so the stored severity at the
failing input (a down-status observation) is the free-text content string,
not an element of the low / medium / high enum: the code contradicts the
documented add_finding contract (src/state_manager.py lines 61-68). -/
theorem C5_severity_enum_violated :
    (recordStepFinding StateManager.init "query_interface_info"
        (Obs.obj [("status", Prim.str "down")])).findings =
      [{ finding := "anomaly", severity := "发现异常: 接口状态为down", step := 0 }] ∧
    ∀ f ∈ (recordStepFinding StateManager.init "query_interface_info"
        (Obs.obj [("status", Prim.str "down")])).findings,
      f.severity ∉ (["low", "medium", "high"] : List String) := by
  constructor
  · rfl
  · decide

/-! ## C7: entity registry updates -/

/-- C7.  The claim as stated is false: update_known_entities is a plain
dict assignment, not a union, so a second update for the same type drops
previously discovered identifiers. -/
theorem C7_claim_counterexample :
    Prim.str "a" ∈ (StructuredOutputGenerator.init.update_known_entities
        "interfaces" [Prim.str "a", Prim.str "b"]).get_known_entities "interfaces" ∧
    Prim.str "a" ∉ ((StructuredOutputGenerator.init.update_known_entities
        "interfaces" [Prim.str "a", Prim.str "b"]).update_known_entities
        "interfaces" [Prim.str "c"]).get_known_entities "interfaces" := by
  decide

/-- C7 (amended): each update replaces knownEntities[type] with the newly
extracted identifier list, so after an update the registry holds exactly
that list for the type; identifiers from earlier updates are kept only if
re-extracted, and monotonic growth does not hold. -/
theorem C7_amended_update_replaces (g : StructuredOutputGenerator)
    (entity_type : String) (entities : List Prim) :
    (g.update_known_entities entity_type entities).get_known_entities entity_type =
      entities := by
  unfold StructuredOutputGenerator.update_known_entities
      StructuredOutputGenerator.get_known_entities
  exact keGet_keSet g.known_entities entity_type entities

/-! ## C9: recordAction on executor observations -/

/-- C9.  The claim as stated is false: on a bare list observation (a shape
the spec's executor contract allows), the observation-extraction step of
add_execution iterates tool_response.items() and raises AttributeError. -/
theorem C9_claim_counterexample :
    StateManager.init.add_execution "query_all_device_interfaces" []
      (Obs.list [[("接口", Prim.str "eth0")]]) "" =
    Except.error "AttributeError: list object has no attribute items" := rfl

/-- C9 (amended): for every mapping observation - the only shape the
action executor of this repository produces, error-tagged responses
included - recordAction completes without an error, incrementing
stepCount, appending the ActionRecord, incrementing usageCounts[name]
(leaving other counters unchanged), merging the non-underscore response
fields into the observations store, and touching nothing else. -/
theorem C9_amended_mapping_never_fails (s : StateManager) (tool_name : String)
    (tool_request : Dict) (fields : Dict) (reasoning : String) :
    ∃ s', s.add_execution tool_name tool_request (Obs.obj fields) reasoning =
        Except.ok s' ∧
      s'.step_count = s.step_count + 1 ∧
      s'.executed_tools = s.executed_tools ++
        [{ step := s.step_count + 1, tool_name := tool_name,
           tool_request := tool_request, tool_response := Obs.obj fields,
           reasoning := reasoning }] ∧
      s'.get_tool_usage_count tool_name = s.get_tool_usage_count tool_name + 1 ∧
      (∀ other, other ≠ tool_name →
        s'.get_tool_usage_count other = s.get_tool_usage_count other) ∧
      s'.observations = extractObsInto tool_name fields s.observations ∧
      s'.findings = s.findings ∧
      s'.diagnostic_chain = s.diagnostic_chain ∧
      s'.current_focus = s.current_focus ∧
      s'.excluded_causes = s.excluded_causes := by
  refine ⟨_, rfl, rfl, rfl, ?_, ?_, rfl, rfl, rfl, rfl, rfl⟩
  · exact usageLookup_usageBump_self s.tool_usage_count tool_name
  · intro other hne
    exact usageLookup_usageBump_ne s.tool_usage_count tool_name other hne

/-! ## C10: the special finish names -/

/-- C10: is_valid_tool accepts finish_diagnosis and finish in every catalog
state, including the empty catalog, because the special-name check precedes
the membership test. -/
theorem C10_finish_names_always_valid (tm : ToolManager) :
    tm.is_valid_tool "finish_diagnosis" = true ∧ tm.is_valid_tool "finish" = true :=
  ⟨rfl, rfl⟩

/-! ## C4: candidate scoring -/

/-- Specification list for the scoring loop on score-free candidates: the
candidate at offset i from position k receives base n - (k + i) plus the
exploration bonus. -/
def scoredTail (n : Nat) (st : StateManager) : Nat → List Candidate → List Candidate
  | _, [] => []
  | k, c :: rest =>
      { c with score := some (((n : Rat) - (k : Rat)) +
          2 / ((st.get_tool_usage_count c.tool_name : Rat) + 1)) } ::
        scoredTail n st (k + 1) rest

theorem findIdx_append_cons_self (done : List Candidate) (c : Candidate)
    (rest : List Candidate) (h : ∀ x ∈ done, (x == c) = false) :
    (done ++ c :: rest).findIdx (fun x => x == c) = done.length := by
  induction done with
  | nil => simp [List.findIdx_cons]
  | cons a t ih =>
      have ha := h a (by simp)
      simp only [List.cons_append, List.findIdx_cons, ha, cond_false, List.length_cons]
      rw [ih (fun x hx => h x (by simp [hx]))]

theorem scoreLoop_eq_scoredTail (n : Nat) (st : StateManager) :
    ∀ (todo done : List Candidate),
      (∀ x ∈ done, x.score ≠ Option.none) →
      (∀ x ∈ todo, x.score = Option.none) →
      scoreLoop n st done todo = done ++ scoredTail n st done.length todo := by
  intro todo
  induction todo with
  | nil =>
      intro done _ _
      simp [scoreLoop, scoredTail]
  | cons c rest ih =>
      intro done hdone htodo
      have hc : c.score = Option.none := htodo c (by simp)
      have hne : ∀ x ∈ done, (x == c) = false := by
        intro x hx
        have hxs := hdone x hx
        simp only [beq_eq_false_iff_ne, ne_eq]
        intro hxc
        rw [hxc] at hxs
        exact hxs hc
      rw [scoreLoop, findIdx_append_cons_self done c rest hne]
      refine (ih (done ++ [{ c with score := some (((n : Rat) - (done.length : Rat)) +
            2 / ((st.get_tool_usage_count c.tool_name : Rat) + 1)) }])
          (by intro x hx
              rcases List.mem_append.mp hx with hx | hx
              · exact hdone x hx
              · simp at hx
                subst hx
                simp)
          (fun x hx => htodo x (by simp [hx]))).trans ?_
      simp [scoredTail, List.append_assoc]

theorem apply_scores_eq_scoredTail (st : StateManager) (cs : List Candidate)
    (h : ∀ x ∈ cs, x.score = Option.none) :
    apply_scores cs st = scoredTail cs.length st 0 cs := by
  unfold apply_scores
  simpa using scoreLoop_eq_scoredTail cs.length st cs [] (by simp) h

theorem scoredTail_getElem? (n : Nat) (st : StateManager) :
    ∀ (todo : List Candidate) (k i : Nat) (hi : i < todo.length),
      (scoredTail n st k todo)[i]? = some { todo.get ⟨i, hi⟩ with
        score := some (((n : Rat) - ((k + i : Nat) : Rat)) +
          2 / ((st.get_tool_usage_count (todo.get ⟨i, hi⟩).tool_name : Rat) + 1)) } := by
  intro todo
  induction todo with
  | nil =>
      intro k i hi
      simp at hi
  | cons c rest ih =>
      intro k i hi
      cases i with
      | zero => simp [scoredTail]
      | succ m =>
          have hm : m < rest.length := by simpa using hi
          have := ih (k + 1) m hm
          simp only [scoredTail, List.getElem?_cons_succ, this, List.get]
          have harith : k + 1 + m = k + (m + 1) := by omega
          rw [harith]

/-- C4.  The claim as stated is false: the base term of the score is the
number of surviving candidates, not K = 3.  With three collaborator calls
of which the second yields nothing, two candidates survive; the top
candidate (zero prior usage) receives (2 - 0) + 2/(0+1) = 4, while the
claimed formula gives (3 - 0) + 2/(0+1) = 5. -/
theorem C4_claim_counterexample :
    (apply_scores (get_tool_candidates
        { tools := [("query_interface_info", ""), ("query_device_logs", "")] }
        [some { tool_name := "query_interface_info" }, Option.none,
         some { tool_name := "query_device_logs" }])
      StateManager.init).map (fun c => c.score) = [some 4, some 3] ∧
    ((3 : Rat) - 0) + 2 / (0 + 1) = 5 ∧ ((4 : Rat) ≠ 5) := by
  refine ⟨?_, by norm_num, by norm_num⟩
  rw [show get_tool_candidates
      { tools := [("query_interface_info", ""), ("query_device_logs", "")] }
      [some { tool_name := "query_interface_info" }, Option.none,
       some { tool_name := "query_device_logs" }] =
      [{ tool_name := "query_interface_info" }, { tool_name := "query_device_logs" }]
    from rfl]
  rw [apply_scores_eq_scoredTail _ _ (by
    intro c hc
    simp only [List.mem_cons, List.not_mem_nil, or_false] at hc
    rcases hc with rfl | rfl <;> rfl)]
  simp only [scoredTail, List.length_cons, List.length_nil, List.map_cons, List.map_nil,
    StateManager.get_tool_usage_count, StateManager.init, usageLookup]
  norm_num

/-- C4 (amended): for every list of surviving candidates (each carrying no
pre-existing score key, the shape the parser produces), the candidate at
0-based rank i is assigned score (N - i) + 2.0 / (usageCount(name) + 1),
where N is the number of surviving candidates; this matches the claim
exactly when all K = 3 collaborator calls yield valid candidates. -/
theorem C4_amended_scoring (st : StateManager) (cs : List Candidate)
    (hfresh : ∀ c ∈ cs, c.score = Option.none) (i : Nat) (hi : i < cs.length) :
    (apply_scores cs st)[i]? = some { cs.get ⟨i, hi⟩ with
      score := some (((cs.length : Rat) - (i : Rat)) +
        2 / ((st.get_tool_usage_count (cs.get ⟨i, hi⟩).tool_name : Rat) + 1)) } := by
  rw [apply_scores_eq_scoredTail st cs hfresh]
  have h := scoredTail_getElem? cs.length st cs 0 i hi
  simpa using h

theorem C4_amended_witness :
    (apply_scores [{ tool_name := "query_interface_info" },
        { tool_name := "query_device_logs" }] StateManager.init)[0]? =
      some { tool_name := "query_interface_info", score := some 4 } := by
  have h := C4_amended_scoring StateManager.init
    [{ tool_name := "query_interface_info" }, { tool_name := "query_device_logs" }]
    (by decide) 0 (by decide)
  rw [h]
  norm_num [List.get, StateManager.get_tool_usage_count, StateManager.init, usageLookup]

/-! ## C8: placeholder repair -/

/-- C8: an action argument device_name = 设备 is classified invalid (it
equals an invalid pattern), and with a goal declaring the entity
device = X1 on a fresh session, parameter repair substitutes exactly X1. -/
theorem C8_placeholder_repair (st : StateManager) (goal : Goal) (plan : Candidate)
    (hst : st.executed_tools = [])
    (hent : goal.entities = [("device", Prim.str "X1")])
    (hctx : goal.context_params = [])
    (hreq : plan.tool_request = [("device_name", Prim.str "设备")]) :
    is_valid_parameter_value (Prim.str "设备") = false ∧
    (validate_and_fix_parameters plan st goal).tool_request =
      [("device_name", Prim.str "X1")] := by
  constructor
  · decide
  · simp only [validate_and_fix_parameters, extract_known_parameters, hst, hent, hctx, hreq]
    decide

theorem C8_witness :
    is_valid_parameter_value (Prim.str "设备") = false ∧
    (validate_and_fix_parameters
        { tool_name := "query_device_logs",
          tool_request := [("device_name", Prim.str "设备")] }
        StateManager.init
        { entities := [("device", Prim.str "X1")] }).tool_request =
      [("device_name", Prim.str "X1")] :=
  C8_placeholder_repair StateManager.init _ _ rfl rfl rfl rfl

/-! ## C3: planning fails only on an empty catalog -/

theorem select_fallback_tool_ok (tm : ToolManager) (st : StateManager) (goal : Goal)
    (h : tm.tools ≠ []) :
    ∃ c, select_fallback_tool tm st goal = .ok c := by
  have hne : tm.get_all_tool_names.isEmpty = false := by
    cases htools : tm.tools with
    | nil => exact absurd htools h
    | cons a t => simp [ToolManager.get_all_tool_names, htools]
  unfold select_fallback_tool
  simp only [hne, Bool.false_eq_true, if_false]
  exact ⟨_, rfl⟩

/-- C3: for every non-empty catalog, select_next_tool returns a plan and
never a failure, whatever the candidate-generation oracle, the random
draws, and the strict-re-query oracle do: the retry loop, the correction
and the fuzzy match may all fail, but the deterministic fallback always
produces an action once the catalog is non-empty. -/
theorem C3_fails_only_on_empty_catalog (tm : ToolManager) (mode : String)
    (st : StateManager) (goal : Goal) (rounds : Nat → List (Option Candidate))
    (rand : Nat → RandChoice) (correction : Option Candidate)
    (h : tm.tools ≠ []) :
    (select_next_tool tm mode st goal rounds rand correction).isPlan = true := by
  unfold select_next_tool
  cases hA : (select_attempt tm mode st (rounds 0) (rand 0) <|>
      select_attempt tm mode st (rounds 1) (rand 1) <|>
      select_attempt tm mode st (rounds 2) (rand 2)) with
  | some selected => rfl
  | none =>
      cases hC : try_tool_name_correction tm correction with
      | some corrected => rfl
      | none =>
          obtain ⟨c, hc⟩ := select_fallback_tool_ok tm st goal h
          rw [hc]
          rfl

theorem C3_witness :
    (select_next_tool { tools := [("query_ping_tool", "desc")] } "greedy"
      StateManager.init {} (fun _ => []) (fun _ => {}) Option.none).isPlan = true :=
  C3_fails_only_on_empty_catalog _ _ _ _ _ _ _ (by decide)

/-! ## C6: batch fan-out -/

theorem containsSub_trans (s t u : String) (h1 : containsSub s t = true)
    (h2 : containsSub t u = true) : containsSub s u = true := by
  simp only [containsSub, decide_eq_true_eq] at h1 h2 ⊢
  exact h2.trans h1

theorem dictGet?_dictSet_self (d : Dict) (k : String) (v : Prim) :
    dictGet? (dictSet d k v) k = some v := by
  induction d with
  | nil => simp [dictSet, dictGet?]
  | cons hd t ih =>
      obtain ⟨a, w⟩ := hd
      by_cases hak : (a == k) = true
      · simp [dictSet, dictGet?, hak]
      · simp only [dictGet?] at ih
        simp [dictSet, dictGet?, hak, List.find?_cons, ih]

theorem get_relevant_entities_interface (g : StructuredOutputGenerator)
    (tool_name : String) (h : containsSub (pyLower tool_name) "interface" = true) :
    get_relevant_entities g tool_name = g.get_known_entities "interfaces" := by
  unfold get_relevant_entities
  simp [h]

theorem update_tool_request_interface (request : Dict) (entity : Prim)
    (tool_name : String) (h : containsSub (pyLower tool_name) "interface" = true) :
    update_tool_request_for_entity request entity tool_name =
      dictSet request "interface_name" entity := by
  unfold update_tool_request_for_entity
  simp [h]

theorem add_action_observation_located (g : StructuredOutputGenerator)
    (l : List StepData) (sd : StepData) (hsteps : g.steps = l ++ [sd])
    (hlabel : sd.label = "step" ++ toString g.current_step)
    (n : String) (args : Dict) (obs : Obs) (b : Bool) :
    g.add_action_observation n args obs b = .ok { g with steps := l ++
      [{ sd with coa := sd.coa ++
        [{ name := n, args := args, observation := obs }] }] } := by
  unfold StructuredOutputGenerator.add_action_observation
  rw [hsteps, List.getLast?_concat]
  simp only [hlabel, beq_self_eq_true, if_true, List.dropLast_concat]

theorem run_batch_spec (tool_name : String) (base_req : Dict) (reasoning : String)
    (first : Prim) (exec : Dict → Obs)
    (hexec : ∀ req, ∃ fields, exec req = Obs.obj fields) :
    ∀ (entities : List Prim) (st : StateManager) (l : List StepData) (sd : StepData)
      (g : StructuredOutputGenerator) (acc : List (Dict × Obs)),
      g.steps = l ++ [sd] →
      sd.label = "step" ++ toString g.current_step →
      ∃ st' sd',
        run_batch tool_name base_req reasoning first exec entities st g acc =
          .ok (st', { g with steps := l ++ [sd'] },
            acc ++ entities.map (fun e =>
              (update_tool_request_for_entity base_req e tool_name,
               exec (update_tool_request_for_entity base_req e tool_name)))) ∧
        sd'.label = sd.label ∧
        sd'.coa.length = sd.coa.length + entities.length ∧
        st'.executed_tools.length = st.executed_tools.length +
          (entities.filter (fun e => e == first)).length := by
  intro entities
  induction entities with
  | nil =>
      intro st l sd g acc hsteps hlabel
      refine ⟨st, sd, ?_, rfl, by simp, by simp⟩
      rw [← hsteps]
      simp [run_batch]
  | cons e rest ih =>
      intro st l sd g acc hsteps hlabel
      obtain ⟨f, hf⟩ := hexec (update_tool_request_for_entity base_req e tool_name)
      have hadd := add_action_observation_located g l sd hsteps hlabel tool_name
        (update_tool_request_for_entity base_req e tool_name) (Obs.obj f) true
      by_cases he : (e == first) = true
      · -- the first entity: add_execution records the step
        obtain ⟨st', sd', hrun, hlab, hcoa, hexecd⟩ := ih
          { st with step_count := st.step_count + 1,
                    executed_tools := st.executed_tools ++
                      [{ step := st.step_count + 1, tool_name := tool_name,
                         tool_request := update_tool_request_for_entity base_req e tool_name,
                         tool_response := Obs.obj f, reasoning := reasoning }],
                    tool_usage_count := usageBump st.tool_usage_count tool_name,
                    observations := extractObsInto tool_name f st.observations }
          l
          { sd with coa := sd.coa ++
              [{ name := tool_name,
                 args := update_tool_request_for_entity base_req e tool_name,
                 observation := Obs.obj f }] }
          { g with steps := l ++
              [{ sd with coa := sd.coa ++
                [{ name := tool_name,
                   args := update_tool_request_for_entity base_req e tool_name,
                   observation := Obs.obj f }] }] }
          (acc ++ [(update_tool_request_for_entity base_req e tool_name, Obs.obj f)])
          rfl hlabel
        refine ⟨st', sd', ?_, hlab, by simp at hcoa ⊢; omega, ?_⟩
        · rw [run_batch, hf, hadd, if_pos he]
          refine Eq.trans ?_ (hrun.trans ?_)
          · rfl
          · simp [List.append_assoc, hf]
        · rw [hexecd]
          simp [List.filter_cons, he]
          omega
      · -- a later entity distinct from the first: state untouched
        obtain ⟨st', sd', hrun, hlab, hcoa, hexecd⟩ := ih st
          l
          { sd with coa := sd.coa ++
              [{ name := tool_name,
                 args := update_tool_request_for_entity base_req e tool_name,
                 observation := Obs.obj f }] }
          { g with steps := l ++
              [{ sd with coa := sd.coa ++
                [{ name := tool_name,
                   args := update_tool_request_for_entity base_req e tool_name,
                   observation := Obs.obj f }] }] }
          (acc ++ [(update_tool_request_for_entity base_req e tool_name, Obs.obj f)])
          rfl hlabel
        refine ⟨st', sd', ?_, hlab, by simp at hcoa ⊢; omega, ?_⟩
        · rw [run_batch, hf, hadd, if_neg he]
          refine Eq.trans ?_ (hrun.trans ?_)
          · rfl
          · simp [List.append_assoc, hf]
        · rw [hexecd]
          have he2 : (e == first) = false := by simpa using he
          simp [List.filter_cons, he2]

theorem record_finding_step_executed (s : StateManager) (fd : Option AFinding) :
    (record_finding_step s fd).executed_tools = s.executed_tools := by
  cases fd <;> rfl

theorem add_finding_executed (s : StateManager) (a b : String) :
    (s.add_finding a b).executed_tools = s.executed_tools := rfl

theorem update_chain_executed (s : StateManager) (a r c : String) (nf : Option String) :
    (s.update_diagnostic_chain a r c nf).executed_tools = s.executed_tools :=
  (update_chain_shape s a r c nf).2.1

/-- C6: with knownEntities for interfaces holding the three identifiers a,
b, c, an action whose lowercased name contains interface (the check the
code uses for an action taking an interface argument), and a rationale
containing 逐一检查每个接口, the batch check fires: the step executes the
action exactly 3 times with the identifier substituted into the
interface_name argument each time, adds exactly 1 ActionRecord to the
session state, and appends 3 observations to the current output step. -/
theorem C6_batch_fanout (plan : Candidate) (exec : Dict → Obs) (st : StateManager)
    (g : StructuredOutputGenerator)
    (hname : containsSub (pyLower plan.tool_name) "interface" = true)
    (hent : g.get_known_entities "interfaces" =
      [Prim.str "a", Prim.str "b", Prim.str "c"])
    (hreas : containsSub plan.reasoning "逐一检查每个接口" = true)
    (hexec : ∀ req, ∃ fields, exec req = Obs.obj fields) :
    ∃ out, generate_step_body plan exec st g = .ok out ∧
      out.executions.length = 3 ∧
      out.state.executed_tools.length = st.executed_tools.length + 1 ∧
      (out.gen.steps.getLast?).map (fun x => x.coa.length) = some 3 ∧
      out.executions.map (fun p => dictGet? p.1 "interface_name") =
        [some (Prim.str "a"), some (Prim.str "b"), some (Prim.str "c")] := by
  have hkw : containsSub plan.reasoning "逐一" = true :=
    containsSub_trans _ _ _ hreas (by decide)
  have hrel : get_relevant_entities (g.start_step plan.reasoning) plan.tool_name =
      [Prim.str "a", Prim.str "b", Prim.str "c"] := by
    rw [get_relevant_entities_interface _ _ hname]
    exact hent
  have hbatch : should_batch_execute plan.reasoning
      [Prim.str "a", Prim.str "b", Prim.str "c"] = true := by
    unfold should_batch_execute
    simp [hkw]
  obtain ⟨st', sd', hrun, hlab, hcoa, hexecd⟩ :=
    run_batch_spec plan.tool_name plan.tool_request plan.reasoning (Prim.str "a")
      exec hexec [Prim.str "a", Prim.str "b", Prim.str "c"] st g.steps
      { label := "step" ++ toString (g.current_step + 1), cot := plan.reasoning,
        coa := [] }
      (g.start_step plan.reasoning) [] rfl rfl
  simp only [generate_step_body, hrel]
  rw [hbatch]
  rw [if_pos (by decide : (!([Prim.str "a", Prim.str "b", Prim.str "c"] :
    List Prim).isEmpty && decide (1 < ([Prim.str "a", Prim.str "b", Prim.str "c"] :
    List Prim).length) && true) = true)]
  rw [show ([Prim.str "a", Prim.str "b", Prim.str "c"] : List Prim).headD Prim.null =
    Prim.str "a" from rfl]
  rw [hrun]
  refine ⟨_, rfl, ?_, ?_, ?_, ?_⟩
  · simp
  · show ((record_finding_step st' _).update_diagnostic_chain _ _ _ _).executed_tools.length = _
    rw [update_chain_executed, record_finding_step_executed, hexecd]
    rw [show (List.filter (fun e => e == Prim.str "a")
        [Prim.str "a", Prim.str "b", Prim.str "c"]).length = 1 from by decide]
  · show ((g.steps ++ [sd']).getLast?).map (fun x => x.coa.length) = some 3
    rw [List.getLast?_concat]
    simp at hcoa
    simp [hcoa]
  · simp only [List.nil_append, List.map_cons, List.map_nil]
    rw [update_tool_request_interface _ _ _ hname, update_tool_request_interface _ _ _ hname,
        update_tool_request_interface _ _ _ hname]
    simp [dictGet?_dictSet_self]

theorem C6_witness :
    ∃ out, generate_step_body
        { tool_name := "query_interface_public_info",
          tool_request := [("device_name", Prim.str "d1")],
          reasoning := "逐一检查每个接口的状态" }
        (fun _ => Obs.obj [("状态", Prim.str "up")])
        StateManager.init
        (StructuredOutputGenerator.init.update_known_entities "interfaces"
          [Prim.str "a", Prim.str "b", Prim.str "c"]) = .ok out ∧
      out.executions.length = 3 ∧
      out.state.executed_tools.length = StateManager.init.executed_tools.length + 1 ∧
      (out.gen.steps.getLast?).map (fun x => x.coa.length) = some 3 ∧
      out.executions.map (fun p => dictGet? p.1 "interface_name") =
        [some (Prim.str "a"), some (Prim.str "b"), some (Prim.str "c")] :=
  C6_batch_fanout _ _ _ _ (by decide) (by decide) (by decide)
    (fun req => ⟨[("状态", Prim.str "up")], rfl⟩)

end Diag
